import Mathlib

/-!
Verification of the HeroCanvas animated-background lifecycle
(`src/components/.../HeroCanvas`), a React component driving a small
Three.js scene: a capability probe selecting a quality tier, a
requestAnimationFrame update loop with frame pacing and pause /
visibility / reduced-motion gating, and teardown that disposes every
graphics resource reachable from the scene graph.

The embedding is shallow: JavaScript numbers are modelled as `ℚ`,
`cos`/`sin` as an abstract pair of functions (no claim depends on trig
identities), the render call as a counter increment, and the scene graph
as a rose tree of objects carrying optional geometry / material handles.
-/

namespace OrbitFlash

/-! ### Quality tier (getPerformanceLevel, orbitCount, targetFPS, frameInterval) -/

inductive Level where
  | low
  | high
deriving DecidableEq

/-- JavaScript `x || d` for a possibly-missing number: `undefined` and `0`
are falsy and replaced by the default. Models
`navigator.hardwareConcurrency || 4`. -/
def jsOrNat (v : Option ℕ) (d : ℕ) : ℕ :=
  match v with
  | Option.none => d
  | some 0 => d
  | some n => n

/-- JavaScript `x || d` for a possibly-missing fractional number. Models
`(navigator as any).deviceMemory || 4`. -/
def jsOrQ (v : Option ℚ) (d : ℚ) : ℚ :=
  match v with
  | Option.none => d
  | some q => if q = 0 then d else q

/-- `getPerformanceLevel`: tier is `low` when
`hardwareConcurrency <= 4 || memory <= 4`, else `high`. -/
def getPerformanceLevel (hardwareConcurrency : Option ℕ) (deviceMemory : Option ℚ) : Level :=
  if jsOrNat hardwareConcurrency 4 ≤ 4 ∨ jsOrQ deviceMemory 4 ≤ 4 then
    Level.low
  else
    Level.high

/-- `performanceLevel === 'high' ? 12 : 8` orbiting spheres. -/
def orbitCount : Level → ℕ
  | Level.high => 12
  | Level.low => 8

/-- `performanceLevel === 'high' ? 60 : 30`. -/
def targetFPS : Level → ℕ
  | Level.high => 60
  | Level.low => 30

/-- `antialias: performanceLevel === 'high'` in the renderer options. -/
def antialias : Level → Bool
  | Level.high => true
  | Level.low => false

/-- `frameInterval = 1000 / targetFPS`. -/
def frameInterval (lvl : Level) : ℚ := 1000 / targetFPS lvl

/-! ### Theorems: tier selection -/

/-- **C3.** For actual capability readings `hc` and `mem`, the tier is `low`
iff `hc ≤ 4 ∨ mem ≤ 4` and otherwise `high`; the `low` tier means 8 orbiting
objects, a 30 fps target (frame interval 1000/30 ms) and antialiasing off,
the `high` tier 12 objects, 60 fps (interval 1000/60 ms) and antialiasing on.
The tier is computed once by `getPerformanceLevel` at initialization and
every tier-derived constant is a pure function of that single value. -/
theorem tier_selection (hc : ℕ) (mem : ℚ) :
    getPerformanceLevel (some hc) (some mem)
      = (if hc ≤ 4 ∨ mem ≤ 4 then Level.low else Level.high) ∧
    orbitCount Level.low = 8 ∧ targetFPS Level.low = 30 ∧
    antialias Level.low = false ∧ frameInterval Level.low = 1000 / 30 ∧
    orbitCount Level.high = 12 ∧ targetFPS Level.high = 60 ∧
    antialias Level.high = true ∧ frameInterval Level.high = 1000 / 60 := by
  refine ⟨?_, rfl, rfl, rfl, rfl, rfl, rfl, rfl, rfl⟩
  unfold getPerformanceLevel jsOrNat jsOrQ
  rcases hc with _ | n
  · simp
  · rcases eq_or_ne mem 0 with h0 | h0
    · subst h0
      simp only [if_pos rfl]
      by_cases hn : n + 1 ≤ 4 <;> simp [hn]
    · simp only [if_neg h0]

/-- **C10.** A missing logical-processor count or device-memory estimate is
replaced by 4, and since the defaulted signal satisfies `≤ 4` the tier
resolves to `low` (8 objects, 30 fps, no antialiasing) whenever either
signal is absent, regardless of the other signal. -/
theorem missing_capability_defaults :
    jsOrNat Option.none 4 = 4 ∧ jsOrQ Option.none 4 = 4 ∧
    (∀ mem : Option ℚ, getPerformanceLevel Option.none mem = Level.low) ∧
    (∀ hc : Option ℕ, getPerformanceLevel hc Option.none = Level.low) ∧
    orbitCount Level.low = 8 ∧ targetFPS Level.low = 30 ∧
    antialias Level.low = false := by
  refine ⟨rfl, rfl, ?_, ?_, rfl, rfl, rfl⟩
  · intro mem
    unfold getPerformanceLevel
    simp [jsOrNat]
  · intro hc
    unfold getPerformanceLevel
    simp [jsOrQ]

/-! ### The animation loop (`animate`, lines 156–197 of the component)

Per-frame state and the `animate` step. Flags (`mounted`, `isVisible`,
`paused`, `prefersReducedMotion`) are the values the closure reads on that
tick; `clockDelta` is the value `clockRef.current.getDelta()` would return
on that tick (it is only consulted on render-eligible ticks, exactly as in
the code). The `renderer.render(scene, camera)` call is modelled as an
increment of `renderCount`, and `requestAnimationFrame(animate)` as setting
`scheduled := true`. -/

structure OrbitData where
  radius : ℚ
  angle : ℚ
  height : ℚ
  speed : ℚ
  verticalSpeed : ℚ
deriving DecidableEq

structure Vec3 where
  x : ℚ
  y : ℚ
  z : ℚ
deriving DecidableEq

structure Sphere where
  userData : OrbitData
  position : Vec3
  rotationY : ℚ
deriving DecidableEq

/-- Abstract trigonometric oracle standing for JavaScript `Math.cos` /
`Math.sin`; no claim depends on trigonometric identities. -/
structure Trig where
  cos : ℚ → ℚ
  sin : ℚ → ℚ

structure TickInput where
  mounted : Bool
  isVisible : Bool
  paused : Bool
  prefersReducedMotion : Bool
  currentTime : ℚ
  clockDelta : ℚ
deriving DecidableEq

structure LoopState where
  orbits : List Sphere
  coreRotationX : ℚ
  coreRotationY : ℚ
  lastFrameTime : ℚ
  renderCount : ℕ
  scheduled : Bool
deriving DecidableEq

/-- Body of `orbitsRef.current.forEach` plus the per-sphere
`rotation.y += deltaTime * 0.5`:
`angle += speed * dt`, `height += verticalSpeed * dt * 0.5`,
`position = (cos(angle)·radius, sin(height)·0.3, sin(angle)·radius)`. -/
def updateOrbitSphere (trig : Trig) (deltaTime : ℚ) (s : Sphere) : Sphere :=
  let angle := s.userData.angle + s.userData.speed * deltaTime
  let height := s.userData.height + s.userData.verticalSpeed * deltaTime * (1/2)
  { userData := { s.userData with angle := angle, height := height }
    position := { x := trig.cos angle * s.userData.radius
                  y := trig.sin height * (3/10)
                  z := trig.sin angle * s.userData.radius }
    rotationY := s.rotationY + deltaTime * (1/2) }

/-- One invocation of `animate(currentTime)`. `fi` is the closure constant
`frameInterval`. -/
def animate (trig : Trig) (fi : ℚ) (inp : TickInput) (s : LoopState) : LoopState :=
  if !inp.mounted || !inp.isVisible || inp.paused then
    { s with scheduled := true }
  else if fi ≤ inp.currentTime - s.lastFrameTime then
    let s1 :=
      if !inp.prefersReducedMotion then
        { s with
          orbits := s.orbits.map (updateOrbitSphere trig inp.clockDelta)
          coreRotationY := s.coreRotationY + inp.clockDelta * (1/5)
          coreRotationX := s.coreRotationX + inp.clockDelta * (1/10) }
      else s
    { s1 with
      renderCount := s1.renderCount + 1
      lastFrameTime := inp.currentTime
      scheduled := true }
  else
    { s with scheduled := true }

/-- The loop run over a finite sequence of ticks. -/
def runLoop (trig : Trig) (fi : ℚ) (inps : List TickInput) (s : LoopState) : LoopState :=
  inps.foldl (fun acc i => animate trig fi i acc) s

/-- Loop state right after `animate(0)` would first be reached:
`lastFrameTime = 0`, core not yet rotated, nothing rendered. -/
def initialLoopState (orbits : List Sphere) : LoopState :=
  { orbits := orbits
    coreRotationX := 0
    coreRotationY := 0
    lastFrameTime := 0
    renderCount := 0
    scheduled := false }

/-- Concrete trig oracle used for witnesses. -/
def testTrig : Trig := ⟨fun _ => 1, fun _ => 0⟩

/-- A tick with every gate open: mounted, visible, not paused, motion on. -/
def activeTick (t : ℚ) : TickInput :=
  { mounted := true
    isVisible := true
    paused := false
    prefersReducedMotion := false
    currentTime := t
    clockDelta := 1 }

/-- A tick arriving while the component is externally paused. -/
def pausedTick (t : ℚ) : TickInput :=
  { mounted := true
    isVisible := true
    paused := true
    prefersReducedMotion := false
    currentTime := t
    clockDelta := 1 }

/-- Shared helper: on a tick with the component unmounted, invisible or
paused, `animate` only reschedules — state is unchanged except `scheduled`. -/
theorem animate_inactive (trig : Trig) (fi : ℚ) (inp : TickInput) (s : LoopState)
    (h : inp.mounted = false ∨ inp.isVisible = false ∨ inp.paused = true) :
    animate trig fi inp s = { s with scheduled := true } := by
  unfold animate
  rcases h with h | h | h <;> simp [h]

/-- A tick with motion disabled by the reduced-motion preference but every
other gate open. -/
def reducedTick (t : ℚ) : TickInput :=
  { mounted := true
    isVisible := true
    paused := false
    prefersReducedMotion := true
    currentTime := t
    clockDelta := 1 }

/-- A concrete orbiting sphere used for witnesses. -/
def testSphere : Sphere :=
  { userData := { radius := 2, angle := 0, height := 0, speed := 1/4, verticalSpeed := 1/8 }
    position := { x := 0, y := 0, z := 0 }
    rotationY := 0 }

/-- Shared helper: case analysis of one `animate` tick — either it only
reschedules, or it renders (bumping `renderCount` and stamping
`lastFrameTime` with the tick time) because every gate was open and the
frame interval had elapsed. -/
theorem animate_cases (trig : Trig) (fi : ℚ) (inp : TickInput) (s : LoopState) :
    animate trig fi inp s = { s with scheduled := true } ∨
    ((animate trig fi inp s).renderCount = s.renderCount + 1 ∧
     (animate trig fi inp s).lastFrameTime = inp.currentTime ∧
     fi ≤ inp.currentTime - s.lastFrameTime) := by
  unfold animate
  by_cases h1 : (!inp.mounted || !inp.isVisible || inp.paused) = true
  · left
    simp [h1]
  · rw [Bool.not_eq_true] at h1
    by_cases h2 : fi ≤ inp.currentTime - s.lastFrameTime
    · right
      refine ⟨?_, ?_, h2⟩ <;>
        by_cases h3 : inp.prefersReducedMotion = true <;> simp [h1, h2, h3]
    · left
      simp [h1, h2]

/-- Shared helper: one tick never renders more than once. -/
theorem animate_renderCount_le (trig : Trig) (fi : ℚ) (inp : TickInput) (s : LoopState) :
    (animate trig fi inp s).renderCount ≤ s.renderCount + 1 := by
  rcases animate_cases trig fi inp s with h | h
  · rw [h]
    exact Nat.le_succ _
  · exact Nat.le_of_eq h.1

/-! ### Theorems: pause / visibility gating (C1, C6) -/

/-- **C1, counterexample.** The claim says a tick arriving while the
component is externally paused still issues a render call of the last
state. It does not: at the concrete paused tick at `t = 100` from the
initial state (`renderCount = 0`), the code takes the early-return branch
(lines 162–165), so `renderCount` stays `0` instead of becoming `1` — no
render call is issued at all. -/
theorem paused_tick_renders_nothing :
    (animate testTrig (frameInterval Level.low) (pausedTick 100)
       (initialLoopState [testSphere])).renderCount = 0 ∧
    ¬ (animate testTrig (frameInterval Level.low) (pausedTick 100)
         (initialLoopState [testSphere])).renderCount
        = (initialLoopState [testSphere]).renderCount + 1 := by
  constructor
  · rfl
  · decide

/-- **C1, amended.** For every frame tick that arrives while the component
is unmounted, page-invisible, or externally paused, the update loop skips
the animation math *and* the render call: the whole state is unchanged
except that the next tick is scheduled. -/
theorem inactive_tick_skips_math_and_render (trig : Trig) (fi : ℚ)
    (inp : TickInput) (s : LoopState)
    (h : inp.mounted = false ∨ inp.isVisible = false ∨ inp.paused = true) :
    animate trig fi inp s = { s with scheduled := true } :=
  animate_inactive trig fi inp s h

/-- Witness for the amended C1 at the concrete paused tick. -/
theorem inactive_tick_skips_math_and_render_witness :
    ((pausedTick 100).mounted = false ∨ (pausedTick 100).isVisible = false ∨
       (pausedTick 100).paused = true) ∧
    animate testTrig (frameInterval Level.low) (pausedTick 100) (initialLoopState [testSphere])
      = { initialLoopState [testSphere] with scheduled := true } :=
  ⟨Or.inr (Or.inr rfl),
   inactive_tick_skips_math_and_render testTrig (frameInterval Level.low)
     (pausedTick 100) (initialLoopState [testSphere]) (Or.inr (Or.inr rfl))⟩

/-- **C6.** From the moment pausing begins (state `s`), any number of
subsequent ticks that all carry `paused = true` leave every orbiting
object — position, orbit parameters and self-rotation — exactly as it was
when pausing began. -/
theorem paused_run_freezes_orbits (trig : Trig) (fi : ℚ)
    (inps : List TickInput) (s : LoopState)
    (h : ∀ i ∈ inps, i.paused = true) :
    (runLoop trig fi inps s).orbits = s.orbits := by
  induction inps generalizing s with
  | nil => rfl
  | cons i rest ih =>
    have hi : i.paused = true := h i (List.mem_cons_self i rest)
    have hrest : ∀ j ∈ rest, j.paused = true := fun j hj => h j (List.mem_cons_of_mem i hj)
    show (runLoop trig fi rest (animate trig fi i s)).orbits = s.orbits
    rw [animate_inactive trig fi i s (Or.inr (Or.inr hi))]
    exact ih _ hrest

/-- Witness for C6: two concrete paused ticks leave the concrete orbit list
unchanged. -/
theorem paused_run_freezes_orbits_witness :
    (∀ i ∈ [pausedTick 1000, pausedTick 5000], i.paused = true) ∧
    (runLoop testTrig (frameInterval Level.low) [pausedTick 1000, pausedTick 5000]
       (initialLoopState [testSphere])).orbits = (initialLoopState [testSphere]).orbits :=
  ⟨by decide,
   paused_run_freezes_orbits testTrig (frameInterval Level.low)
     [pausedTick 1000, pausedTick 5000] (initialLoopState [testSphere]) (by decide)⟩

/-! ### Theorems: frame pacing (C4) -/

/-- **C4.** Frame pacing: (i) a tick with every gate open whose elapsed time
since the last rendered frame is below the frame interval performs no
render and changes nothing except scheduling the next tick; (ii) across any
two consecutive ticks less than one frame interval apart, at most one
render occurs; (iii) concretely, with the low tier's 1000/30 ms interval,
two ticks 5 ms apart (at t = 1000 and t = 1005) produce exactly one
render. -/
theorem frame_pacing :
    (∀ (trig : Trig) (fi : ℚ) (inp : TickInput) (s : LoopState),
       inp.mounted = true → inp.isVisible = true → inp.paused = false →
       inp.currentTime - s.lastFrameTime < fi →
       animate trig fi inp s = { s with scheduled := true }) ∧
    (∀ (trig : Trig) (fi : ℚ) (inp1 inp2 : TickInput) (s : LoopState),
       inp2.currentTime - inp1.currentTime < fi →
       (animate trig fi inp2 (animate trig fi inp1 s)).renderCount
         ≤ s.renderCount + 1) ∧
    (runLoop testTrig (frameInterval Level.low)
       [activeTick 1000, activeTick 1005] (initialLoopState [testSphere])).renderCount = 1 := by
  refine ⟨?_, ?_, ?_⟩
  · intro trig fi inp s hm hv hp hlt
    unfold animate
    simp [hm, hv, hp, not_le.mpr hlt]
  · intro trig fi inp1 inp2 s hlt
    rcases animate_cases trig fi inp1 s with h1 | h1
    · calc (animate trig fi inp2 (animate trig fi inp1 s)).renderCount
          ≤ (animate trig fi inp1 s).renderCount + 1 := animate_renderCount_le _ _ _ _
        _ = s.renderCount + 1 := by rw [h1]
    · rcases animate_cases trig fi inp2 (animate trig fi inp1 s) with h2 | h2
      · rw [h2]
        exact Nat.le_of_eq h1.1
      · exfalso
        have hle : fi ≤ inp2.currentTime - inp1.currentTime := by
          have := h2.2.2
          rw [h1.2.1] at this
          exact this
        linarith
  · norm_num [runLoop, animate, activeTick, initialLoopState, testSphere, testTrig,
      updateOrbitSphere, frameInterval, targetFPS]

/-- Witness for C4 at concrete inputs: part (i) at a tick 5 ms after the
last rendered frame, part (ii) at the two ticks 5 ms apart. -/
theorem frame_pacing_witness :
    (((activeTick 5).mounted = true) ∧ ((activeTick 5).isVisible = true) ∧
     ((activeTick 5).paused = false) ∧
     ((activeTick 5).currentTime - (initialLoopState [testSphere]).lastFrameTime
        < frameInterval Level.low) ∧
     animate testTrig (frameInterval Level.low) (activeTick 5) (initialLoopState [testSphere])
       = { initialLoopState [testSphere] with scheduled := true }) ∧
    (((activeTick 1005).currentTime - (activeTick 1000).currentTime < frameInterval Level.low) ∧
     (animate testTrig (frameInterval Level.low) (activeTick 1005)
        (animate testTrig (frameInterval Level.low) (activeTick 1000)
          (initialLoopState [testSphere]))).renderCount
       ≤ (initialLoopState [testSphere]).renderCount + 1) :=
  ⟨⟨rfl, rfl, rfl, by norm_num [activeTick, initialLoopState, frameInterval, targetFPS],
    frame_pacing.1 testTrig (frameInterval Level.low) (activeTick 5)
      (initialLoopState [testSphere]) rfl rfl rfl
      (by norm_num [activeTick, initialLoopState, frameInterval, targetFPS])⟩,
   ⟨by norm_num [activeTick, frameInterval, targetFPS],
    frame_pacing.2.1 testTrig (frameInterval Level.low) (activeTick 1000) (activeTick 1005)
      (initialLoopState [testSphere])
      (by norm_num [activeTick, frameInterval, targetFPS])⟩⟩

/-! ### Theorems: reduced motion (C5) and per-object update (C7) -/

/-- Shared helper: a reduced-motion tick never touches the orbit list or
the central object's rotation. -/
theorem animate_reduced_preserves (trig : Trig) (fi : ℚ) (inp : TickInput) (s : LoopState)
    (hr : inp.prefersReducedMotion = true) :
    (animate trig fi inp s).orbits = s.orbits ∧
    (animate trig fi inp s).coreRotationX = s.coreRotationX ∧
    (animate trig fi inp s).coreRotationY = s.coreRotationY := by
  unfold animate
  by_cases h1 : (!inp.mounted || !inp.isVisible || inp.paused) = true
  · simp [h1]
  · by_cases h2 : fi ≤ inp.currentTime - s.lastFrameTime <;> simp [h1, h2, hr]

/-- **C5.** With the reduced-motion preference active on every tick:
(i) after any number of ticks every orbiting object (hence its position)
and the central object's rotation equal their initial values — no drift;
(ii) a reduced-motion tick with every gate open and the frame interval
elapsed still issues exactly one render call. -/
theorem reduced_motion_static :
    (∀ (trig : Trig) (fi : ℚ) (inps : List TickInput) (s : LoopState),
       (∀ i ∈ inps, i.prefersReducedMotion = true) →
       (runLoop trig fi inps s).orbits = s.orbits ∧
       (runLoop trig fi inps s).coreRotationX = s.coreRotationX ∧
       (runLoop trig fi inps s).coreRotationY = s.coreRotationY) ∧
    (∀ (trig : Trig) (fi : ℚ) (inp : TickInput) (s : LoopState),
       inp.prefersReducedMotion = true →
       inp.mounted = true → inp.isVisible = true → inp.paused = false →
       fi ≤ inp.currentTime - s.lastFrameTime →
       (animate trig fi inp s).renderCount = s.renderCount + 1) := by
  constructor
  · intro trig fi inps
    induction inps with
    | nil => intro s _; exact ⟨rfl, rfl, rfl⟩
    | cons i rest ih =>
      intro s h
      have hi : i.prefersReducedMotion = true := h i (List.mem_cons_self i rest)
      have hrest : ∀ j ∈ rest, j.prefersReducedMotion = true :=
        fun j hj => h j (List.mem_cons_of_mem i hj)
      have hstep := animate_reduced_preserves trig fi i s hi
      have htail := ih (animate trig fi i s) hrest
      refine ⟨?_, ?_, ?_⟩
      · exact htail.1.trans hstep.1
      · exact htail.2.1.trans hstep.2.1
      · exact htail.2.2.trans hstep.2.2
  · intro trig fi inp s hr hm hv hp hfi
    unfold animate
    simp [hm, hv, hp, hfi, hr]

/-- Witness for C5: two concrete reduced-motion ticks (both of which
render) leave orbits and core rotation at their initial values, and the
first of them bumps the render count by one. -/
theorem reduced_motion_static_witness :
    ((∀ i ∈ [reducedTick 1000, reducedTick 2000], i.prefersReducedMotion = true) ∧
     (runLoop testTrig (frameInterval Level.low) [reducedTick 1000, reducedTick 2000]
        (initialLoopState [testSphere])).orbits = (initialLoopState [testSphere]).orbits ∧
     (runLoop testTrig (frameInterval Level.low) [reducedTick 1000, reducedTick 2000]
        (initialLoopState [testSphere])).coreRotationX
       = (initialLoopState [testSphere]).coreRotationX ∧
     (runLoop testTrig (frameInterval Level.low) [reducedTick 1000, reducedTick 2000]
        (initialLoopState [testSphere])).coreRotationY
       = (initialLoopState [testSphere]).coreRotationY) ∧
    ((reducedTick 1000).prefersReducedMotion = true ∧
     frameInterval Level.low ≤ (reducedTick 1000).currentTime
       - (initialLoopState [testSphere]).lastFrameTime ∧
     (animate testTrig (frameInterval Level.low) (reducedTick 1000)
        (initialLoopState [testSphere])).renderCount
       = (initialLoopState [testSphere]).renderCount + 1) :=
  ⟨⟨by decide,
    reduced_motion_static.1 testTrig (frameInterval Level.low)
      [reducedTick 1000, reducedTick 2000] (initialLoopState [testSphere]) (by decide)⟩,
   ⟨rfl, by norm_num [reducedTick, initialLoopState, frameInterval, targetFPS],
    reduced_motion_static.2 testTrig (frameInterval Level.low) (reducedTick 1000)
      (initialLoopState [testSphere]) rfl rfl rfl rfl
      (by norm_num [reducedTick, initialLoopState, frameInterval, targetFPS])⟩⟩

/-- **C7.** Per-object update on a motion-enabled rendered frame:
(i) each orbiting object's angle advances by `speed · dt`, its vertical
phase by `verticalSpeed · dt · 0.5`, its position becomes
`(cos(angle)·radius, sin(phase)·0.3, sin(angle)·radius)`, and its
self-rotation advances by `dt · 0.5` while radius and both speeds are
untouched; (ii) on a tick with every gate open, motion enabled and the
frame interval elapsed, `animate` applies exactly this update to every
orbiting object and gives the central object its independent slow
self-rotation (`y += dt · 0.2`, `x += dt · 0.1`). -/
theorem per_object_update :
    (∀ (trig : Trig) (dt : ℚ) (sp : Sphere),
       (updateOrbitSphere trig dt sp).userData.angle
         = sp.userData.angle + sp.userData.speed * dt ∧
       (updateOrbitSphere trig dt sp).userData.height
         = sp.userData.height + sp.userData.verticalSpeed * dt * (1/2) ∧
       (updateOrbitSphere trig dt sp).position.x
         = trig.cos (sp.userData.angle + sp.userData.speed * dt) * sp.userData.radius ∧
       (updateOrbitSphere trig dt sp).position.y
         = trig.sin (sp.userData.height + sp.userData.verticalSpeed * dt * (1/2)) * (3/10) ∧
       (updateOrbitSphere trig dt sp).position.z
         = trig.sin (sp.userData.angle + sp.userData.speed * dt) * sp.userData.radius ∧
       (updateOrbitSphere trig dt sp).rotationY = sp.rotationY + dt * (1/2) ∧
       (updateOrbitSphere trig dt sp).userData.radius = sp.userData.radius ∧
       (updateOrbitSphere trig dt sp).userData.speed = sp.userData.speed ∧
       (updateOrbitSphere trig dt sp).userData.verticalSpeed = sp.userData.verticalSpeed) ∧
    (∀ (trig : Trig) (fi : ℚ) (inp : TickInput) (s : LoopState),
       inp.mounted = true → inp.isVisible = true → inp.paused = false →
       inp.prefersReducedMotion = false →
       fi ≤ inp.currentTime - s.lastFrameTime →
       (animate trig fi inp s).orbits
         = s.orbits.map (updateOrbitSphere trig inp.clockDelta) ∧
       (animate trig fi inp s).coreRotationY
         = s.coreRotationY + inp.clockDelta * (1/5) ∧
       (animate trig fi inp s).coreRotationX
         = s.coreRotationX + inp.clockDelta * (1/10)) := by
  constructor
  · intro trig dt sp
    exact ⟨rfl, rfl, rfl, rfl, rfl, rfl, rfl, rfl, rfl⟩
  · intro trig fi inp s hm hv hp hr hfi
    unfold animate
    simp [hm, hv, hp, hr, hfi]

/-- Witness for C7 part (ii) at a concrete motion-enabled rendered tick. -/
theorem per_object_update_witness :
    ((activeTick 1000).mounted = true ∧ (activeTick 1000).isVisible = true ∧
     (activeTick 1000).paused = false ∧ (activeTick 1000).prefersReducedMotion = false ∧
     frameInterval Level.low ≤ (activeTick 1000).currentTime
       - (initialLoopState [testSphere]).lastFrameTime) ∧
    ((animate testTrig (frameInterval Level.low) (activeTick 1000)
        (initialLoopState [testSphere])).orbits
       = (initialLoopState [testSphere]).orbits.map
           (updateOrbitSphere testTrig (activeTick 1000).clockDelta) ∧
     (animate testTrig (frameInterval Level.low) (activeTick 1000)
        (initialLoopState [testSphere])).coreRotationY
       = (initialLoopState [testSphere]).coreRotationY + (activeTick 1000).clockDelta * (1/5) ∧
     (animate testTrig (frameInterval Level.low) (activeTick 1000)
        (initialLoopState [testSphere])).coreRotationX
       = (initialLoopState [testSphere]).coreRotationX + (activeTick 1000).clockDelta * (1/10)) :=
  ⟨⟨rfl, rfl, rfl, rfl, by norm_num [activeTick, initialLoopState, frameInterval, targetFPS]⟩,
   per_object_update.2 testTrig (frameInterval Level.low) (activeTick 1000)
     (initialLoopState [testSphere]) rfl rfl rfl rfl
     (by norm_num [activeTick, initialLoopState, frameInterval, targetFPS])⟩

/-! ### Scene graph and teardown traversal (cleanup, lines 226–237)

The scene graph is a rose tree of objects; each object may carry a
geometry handle and a material slot (absent, a single material, or an
array of materials), mirroring the cleanup callback's guards
`if (object.geometry)` / `if (object.material)` /
`Array.isArray(object.material)`. `Object3D.traverse` in the graphics
library invokes the callback on the object itself and then recursively on
each child. -/

inductive MaterialSlot where
  | absent
  | single (handle : ℕ)
  | array (handles : List ℕ)

structure ObjectData where
  geometry : Option ℕ
  material : MaterialSlot

inductive Object3D where
  | node (data : ObjectData) (children : List Object3D)

/-- The dispose calls the cleanup callback makes for one visited object,
in order: its geometry handle if present, then its material handle(s). -/
def resourceHandles (d : ObjectData) : List ℕ :=
  (match d.geometry with
   | Option.none => []
   | some g => [g]) ++
  (match d.material with
   | MaterialSlot.absent => []
   | MaterialSlot.single m => [m]
   | MaterialSlot.array ms => ms)

mutual

/-- `Object3D.traverse`: visit the object itself, then every child
recursively; returns the visited objects' data in visit order. -/
def traverseVisit : Object3D → List ObjectData
  | Object3D.node d cs => d :: traverseVisitChildren cs

def traverseVisitChildren : List Object3D → List ObjectData
  | [] => []
  | c :: cs => traverseVisit c ++ traverseVisitChildren cs

end

/-- The full ordered list of dispose calls issued by
`sceneRef.current.traverse(...)` in the cleanup function. -/
def disposeCalls (o : Object3D) : List ℕ :=
  (traverseVisit o).flatMap resourceHandles

mutual

/-- All resource handles reachable from an object, computed structurally
(independently of the traversal). -/
def reachableResources : Object3D → List ℕ
  | Object3D.node d cs => resourceHandles d ++ reachableResourcesChildren cs

def reachableResourcesChildren : List Object3D → List ℕ
  | [] => []
  | c :: cs => reachableResources c ++ reachableResourcesChildren cs

end

mutual

/-- Number of objects in a scene graph. -/
def sceneSize : Object3D → ℕ
  | Object3D.node _ cs => 1 + sceneSizeChildren cs

def sceneSizeChildren : List Object3D → ℕ
  | [] => 0
  | c :: cs => sceneSize c + sceneSizeChildren cs

end

/-- Resource handles left unreleased by the cleanup traversal. -/
def unreleasedHandles (o : Object3D) : List ℕ :=
  (reachableResources o).filter (fun h => !((disposeCalls o).contains h))

mutual

theorem traverseVisit_length : ∀ o : Object3D, (traverseVisit o).length = sceneSize o
  | Object3D.node d cs => by
      rw [traverseVisit, sceneSize, List.length_cons, traverseVisitChildren_length cs]
      omega

theorem traverseVisitChildren_length :
    ∀ os : List Object3D, (traverseVisitChildren os).length = sceneSizeChildren os
  | [] => rfl
  | c :: cs => by
      rw [traverseVisitChildren, sceneSizeChildren, List.length_append,
        traverseVisit_length c, traverseVisitChildren_length cs]

end

mutual

theorem disposeCalls_eq_reachable :
    ∀ o : Object3D, (traverseVisit o).flatMap resourceHandles = reachableResources o
  | Object3D.node d cs => by
      rw [traverseVisit, reachableResources, List.flatMap_cons,
        disposeCallsChildren_eq_reachable cs]

theorem disposeCallsChildren_eq_reachable :
    ∀ os : List Object3D,
      (traverseVisitChildren os).flatMap resourceHandles = reachableResourcesChildren os
  | [] => rfl
  | c :: cs => by
      rw [traverseVisitChildren, reachableResourcesChildren, List.flatMap_append,
        disposeCalls_eq_reachable c, disposeCallsChildren_eq_reachable cs]

end

/-! ### The concrete scene built by a successful initialization -/

/-- A light: no geometry, no material to dispose. -/
def lightObject : Object3D := Object3D.node ⟨Option.none, MaterialSlot.absent⟩ []

/-- The central core mesh: one geometry and one material. Handle numbering
is by allocation order: core geometry 0, core material 1. -/
def coreObject : Object3D := Object3D.node ⟨some 0, MaterialSlot.single 1⟩ []

/-- Orbiting sphere `i`: geometry handle `2 + 2·i`, material handle
`3 + 2·i` (fresh allocations per loop iteration). -/
def orbitObject (i : ℕ) : Object3D :=
  Object3D.node ⟨some (2 + 2 * i), MaterialSlot.single (3 + 2 * i)⟩ []

/-- The scene after a successful `initThreeJS`: the scene root (no
geometry/material) with the ambient light, directional light, core mesh
and `orbitCount` orbiting spheres as direct children. -/
def builtScene (lvl : Level) : Object3D :=
  Object3D.node ⟨Option.none, MaterialSlot.absent⟩
    (lightObject :: lightObject :: coreObject ::
      (List.range (orbitCount lvl)).map orbitObject)

/-- **C8.** Teardown after successful initialization: (i) the dispose
calls issued by the cleanup traversal are exactly the resource handles
reachable from the scene graph, in traversal order; (ii) the traversal
visits every object exactly once (visit list length = object count);
(iii) no reachable handle is left unreleased; (iv) for the scene actually
built by initialization (either tier), the dispose-call list has no
duplicates and every reachable geometry/material handle is disposed
exactly once. -/
theorem teardown_releases_all_resources :
    (∀ o : Object3D, disposeCalls o = reachableResources o) ∧
    (∀ o : Object3D, (traverseVisit o).length = sceneSize o) ∧
    (∀ o : Object3D, unreleasedHandles o = []) ∧
    (∀ lvl : Level, (disposeCalls (builtScene lvl)).Nodup ∧
       ∀ h ∈ reachableResources (builtScene lvl),
         (disposeCalls (builtScene lvl)).count h = 1) := by
  have heq : ∀ o : Object3D, disposeCalls o = reachableResources o := by
    intro o
    rw [disposeCalls, disposeCalls_eq_reachable o]
  refine ⟨heq, traverseVisit_length, ?_, ?_⟩
  · intro o
    rw [unreleasedHandles, heq o]
    rw [List.filter_eq_nil_iff]
    intro a ha
    simp [ha]
  · intro lvl
    cases lvl <;> exact ⟨by decide, by decide⟩

/-! ### Initialization outcomes and teardown safety (init useEffect, lines 43–239)

`initThreeJS` can stop at several points: the WebGL support check throws
(line 51), the component was unmounted while awaiting the dynamic import
(line 58), a graphics-library constructor throws, or — only possible if
the mount node disappeared after the initial guard — `appendChild` throws
(line 140; by then the refs were already stored at lines 133–137). The
cleanup function (lines 213–238) cancels the scheduled frame, removes and
disposes the renderer only under the guard
`if (rendererRef.current && mountRef.current)`, and traverses the scene if
`sceneRef.current` is set. `removeChild` is the only call that can raise:
it throws `NotFoundError` when the surface is not attached. -/

structure InitEnv where
  webglSupported : Bool
  stillMountedAfterImport : Bool
  constructorsSucceed : Bool
  mountPresentAtAppend : Bool

structure CompState where
  rendererSet : Bool
  sceneSet : Bool
  frameScheduled : Bool
  attachedSurfaces : ℕ
  errorSet : Bool
deriving DecidableEq

def emptyCompState : CompState :=
  { rendererSet := false
    sceneSet := false
    frameScheduled := false
    attachedSurfaces := 0
    errorSet := false }

/-- Outcome of one `initThreeJS()` call, by failure point. -/
def initThreeJS (env : InitEnv) : CompState :=
  if !env.webglSupported then
    { emptyCompState with errorSet := true }
  else if !env.stillMountedAfterImport then
    emptyCompState
  else if !env.constructorsSucceed then
    { emptyCompState with errorSet := true }
  else if !env.mountPresentAtAppend then
    { rendererSet := true
      sceneSet := true
      frameScheduled := false
      attachedSurfaces := 0
      errorSet := true }
  else
    { rendererSet := true
      sceneSet := true
      frameScheduled := true
      attachedSurfaces := 1
      errorSet := false }

def initSucceeded (env : InitEnv) : Bool :=
  env.webglSupported && env.stillMountedAfterImport &&
    env.constructorsSucceed && env.mountPresentAtAppend

/-- The cleanup function returned by the init effect. `mountPresentNow` is
`mountRef.current` at cleanup time. A `NotFoundError` propagates out of
`removeChild` when it runs with no attached surface. -/
def cleanup (mountPresentNow : Bool) (s : CompState) : Except String CompState :=
  let s0 := { s with frameScheduled := false }
  if s0.rendererSet && mountPresentNow then
    if s0.attachedSurfaces = 0 then
      Except.error "NotFoundError"
    else
      Except.ok { s0 with attachedSurfaces := s0.attachedSurfaces - 1 }
  else
    Except.ok s0

def cleanupRaises (r : Except String CompState) : Bool :=
  match r with
  | Except.ok _ => false
  | Except.error _ => true

def attachedAfterCleanup (r : Except String CompState) : ℕ :=
  match r with
  | Except.ok s => s.attachedSurfaces
  | Except.error _ => 1

/-- **C9.** Teardown immediately after a failed (partial) initialization
never raises and leaves zero surfaces attached to the host container. The
side condition `mountPresentNow = true → env.mountPresentAtAppend = true`
encodes that the mount node can only disappear, never reappear: if the
mount node is present at cleanup time it was present at append time. -/
theorem failed_init_cleanup_safe (env : InitEnv) (mountPresentNow : Bool)
    (hfail : initSucceeded env = false)
    (hmount : mountPresentNow = true → env.mountPresentAtAppend = true) :
    cleanupRaises (cleanup mountPresentNow (initThreeJS env)) = false ∧
    attachedAfterCleanup (cleanup mountPresentNow (initThreeJS env)) = 0 := by
  obtain ⟨w, i, c, m⟩ := env
  cases w <;> cases i <;> cases c <;> cases m <;> cases mountPresentNow <;>
    simp_all [initSucceeded, initThreeJS, cleanup, cleanupRaises,
      attachedAfterCleanup, emptyCompState]

/-- Witness for C9: cleanup right after the WebGL-support check failed,
with the mount node still present. -/
theorem failed_init_cleanup_safe_witness :
    initSucceeded ⟨false, true, true, true⟩ = false ∧
    (true = true → InitEnv.mountPresentAtAppend ⟨false, true, true, true⟩ = true) ∧
    cleanupRaises (cleanup true (initThreeJS ⟨false, true, true, true⟩)) = false ∧
    attachedAfterCleanup (cleanup true (initThreeJS ⟨false, true, true, true⟩)) = 0 :=
  ⟨rfl, fun _ => rfl,
   failed_init_cleanup_safe ⟨false, true, true, true⟩ true rfl (fun _ => rfl)⟩

/-! ### The init effect's dependency array (line 239) and scene rebuilds

The init effect is declared with dependency array
`[paused, prefersReducedMotion, isVisible, getPerformanceLevel]`.
`getPerformanceLevel` comes from `useCallback` with an empty dependency
list, so its identity is stable; the three booleans are compared by value
on every render. Per the host framework's effect semantics, the effect's
cleanup and re-initialization run whenever one of the compared values
changed, and the effect runs once at mount. Each (successful) run of the
effect calls `initThreeJS`, which constructs a fresh scene, camera,
renderer and orbit set. -/

structure EffectDeps where
  paused : Bool
  prefersReducedMotion : Bool
  isVisible : Bool
deriving DecidableEq

/-- How many of the successive dependency snapshots differ from their
predecessor (each one re-runs the effect). -/
def countDepChanges : EffectDeps → List EffectDeps → ℕ
  | _, [] => 0
  | prev, d :: rest => (if d = prev then 0 else 1) + countDepChanges d rest

/-- Number of scene constructions over a mount: one for the initial
effect run plus one per dependency change. -/
def sceneCreations (d0 : EffectDeps) (rest : List EffectDeps) : ℕ :=
  1 + countDepChanges d0 rest

/-- **C2 is violated by the code (evaluation at the failing input).** With
the flags mounting as `(paused, prefersReducedMotion, isVisible) =
(false, false, true)` and a single later change of the paused flag to
`true`, the dependency array at line 239 makes the effect tear down and
re-run, so the scene is created twice during one mount — the claim says
exactly once with no rebuild on flag changes. -/
theorem paused_toggle_rebuilds_scene :
    sceneCreations ⟨false, false, true⟩ [⟨true, false, true⟩] = 2 ∧
    sceneCreations ⟨false, false, true⟩ [⟨true, false, true⟩] ≠ 1 := by
  constructor
  · rfl
  · decide

end OrbitFlash
